import Mathlib

/-!
# Verification of the Ziggurat Intelligence gateway core

Shallow embedding of the proof-hashing, explanation, payment and chain-client
code of the `ziggurat-intelligence` repository, with theorems settling the
frozen specification claims C1..C10.

The Python sources embedded here are:
- `src/core/intelligence_engine.py` (engine-side proof storage)
- `src/integrations/masumi_ziggurat_bridge.py` (task bridge, quality score,
  custom proof hash)
- `src/integrations/icp_openxai_client.py` (response parsing, mocks)
- `src/integrations/unified_payment_service.py` (payment ledger)
- `src/integrations/icp_client.py` (chain client store/retrieve/batch)

Machine integers are modelled as `Nat` with explicit `% 2^32` masking where
the SHA-256 rounds need it; Python `float`/`Decimal` quantities are modelled
as `ℚ`; fallible calls return `Except`/`Option` or are driven by explicit
oracle parameters standing for the remote side of each call.
-/

set_option maxRecDepth 100000

namespace Ziggurat

/-! ## Byte/string helpers -/

/-- UTF-8 encoding of a single character (the byte sequence `str.encode()`
produces in Python). -/
def utf8Char (c : Char) : List Nat :=
  let n := c.toNat
  if n < 0x80 then [n]
  else if n < 0x800 then
    [0xC0 + n / 0x40, 0x80 + n % 0x40]
  else if n < 0x10000 then
    [0xE0 + n / 0x1000, 0x80 + (n / 0x40) % 0x40, 0x80 + n % 0x40]
  else
    [0xF0 + n / 0x40000, 0x80 + (n / 0x1000) % 0x40,
     0x80 + (n / 0x40) % 0x40, 0x80 + n % 0x40]

/-- UTF-8 bytes of a string, as `s.encode()` yields them. -/
def utf8 (s : String) : List Nat :=
  s.data.flatMap utf8Char

/-- First `n` characters of a string (Python `s[:n]`). -/
def strTake (s : String) (n : Nat) : String :=
  String.mk (s.data.take n)

/-- Python `s.startswith(p)`. -/
def pyStartsWith (s p : String) : Bool :=
  p.data.isPrefixOf s.data

/-! ## SHA-256 (`hashlib.sha256`)

A complete executable SHA-256 over byte lists, so that the digests the code
computes (`hashlib.sha256(x).hexdigest()`) can be evaluated inside proofs. -/

/-- Truncation to 32 bits. -/
def mask32 (n : Nat) : Nat := n % 4294967296

/-- 32-bit right rotation by `k` (for `0 < k < 32`, `n < 2^32`). -/
def rotr (k n : Nat) : Nat := mask32 ((n >>> k) ||| (n <<< (32 - k)))

/-- Bitwise complement within 32 bits. -/
def not32 (n : Nat) : Nat := Nat.xor n 4294967295

def ch (x y z : Nat) : Nat := Nat.xor (Nat.land x y) (Nat.land (not32 x) z)

def maj (x y z : Nat) : Nat :=
  Nat.xor (Nat.land x y) (Nat.xor (Nat.land x z) (Nat.land y z))

def bigSigma0 (x : Nat) : Nat := Nat.xor (rotr 2 x) (Nat.xor (rotr 13 x) (rotr 22 x))

def bigSigma1 (x : Nat) : Nat := Nat.xor (rotr 6 x) (Nat.xor (rotr 11 x) (rotr 25 x))

def smallSigma0 (x : Nat) : Nat := Nat.xor (rotr 7 x) (Nat.xor (rotr 18 x) (x >>> 3))

def smallSigma1 (x : Nat) : Nat := Nat.xor (rotr 17 x) (Nat.xor (rotr 19 x) (x >>> 10))

/-- The 64 SHA-256 round constants (FIPS 180-4 §4.2.2, written in
decimal). -/
def sha256K : List Nat :=
  [1116352408, 1899447441, 3049323471, 3921009573, 961987163,
   1508970993, 2453635748, 2870763221, 3624381080, 310598401,
   607225278, 1426881987, 1925078388, 2162078206, 2614888103,
   3248222580, 3835390401, 4022224774, 264347078, 604807628,
   770255983, 1249150122, 1555081692, 1996064986, 2554220882,
   2821834349, 2952996808, 3210313671, 3336571891, 3584528711,
   113926993, 338241895, 666307205, 773529912, 1294757372,
   1396182291, 1695183700, 1986661051, 2177026350, 2456956037,
   2730485921, 2820302411, 3259730800, 3345764771, 3516065817,
   3600352804, 4094571909, 275423344, 430227734, 506948616,
   659060556, 883997877, 958139571, 1322822218, 1537002063,
   1747873779, 1955562222, 2024104815, 2227730452, 2361852424,
   2428436474, 2756734187, 3204031479, 3329325298]

/-- The SHA-256 initial hash values (FIPS 180-4 §5.3.3, in decimal). -/
def sha256H0 : List Nat :=
  [1779033703, 3144134277, 1013904242, 2773480762,
   1359893119, 2600822924, 528734635, 1541459225]

/-- Big-endian 8-byte encoding. -/
def be64 (n : Nat) : List Nat :=
  [(n >>> 56) % 256, (n >>> 48) % 256, (n >>> 40) % 256, (n >>> 32) % 256,
   (n >>> 24) % 256, (n >>> 16) % 256, (n >>> 8) % 256, n % 256]

/-- Big-endian 4-byte encoding of a 32-bit word. -/
def be32 (n : Nat) : List Nat :=
  [(n >>> 24) % 256, (n >>> 16) % 256, (n >>> 8) % 256, n % 256]

/-- SHA-256 message padding: a `0x80` byte, zeros to 56 mod 64, then the
bit length as a big-endian 64-bit integer. -/
def sha256Pad (msg : List Nat) : List Nat :=
  let z := (120 - ((msg.length + 1) % 64)) % 64
  msg ++ [0x80] ++ List.replicate z 0 ++ be64 (8 * msg.length)

/-- One 64-byte block as sixteen big-endian 32-bit words. -/
def blockWords (block : List Nat) : List Nat :=
  (List.range 16).map fun i =>
    (block.getD (4 * i) 0) * 0x1000000 + (block.getD (4 * i + 1) 0) * 0x10000 +
    (block.getD (4 * i + 2) 0) * 0x100 + block.getD (4 * i + 3) 0

/-- Extend sixteen words into the 64-entry message schedule. -/
def schedule (w16 : List Nat) : List Nat :=
  (List.range 48).foldl
    (fun w _ =>
      w ++ [mask32 (smallSigma1 (w.getD (w.length - 2) 0) + w.getD (w.length - 7) 0 +
                    smallSigma0 (w.getD (w.length - 15) 0) + w.getD (w.length - 16) 0)])
    w16

/-- The eight working variables of the compression loop. -/
structure Hash8 where
  a : Nat
  b : Nat
  c : Nat
  d : Nat
  e : Nat
  f : Nat
  g : Nat
  h : Nat

/-- One round of the SHA-256 compression function. -/
def sha256Round (w : List Nat) (st : Hash8) (t : Nat) : Hash8 :=
  let t1 := mask32 (st.h + bigSigma1 st.e + ch st.e st.f st.g +
                    sha256K.getD t 0 + w.getD t 0)
  let t2 := mask32 (bigSigma0 st.a + maj st.a st.b st.c)
  ⟨mask32 (t1 + t2), st.a, st.b, st.c, mask32 (st.d + t1), st.e, st.f, st.g⟩

/-- Compress one message block into the running hash. -/
def sha256Block (hs : List Nat) (block : List Nat) : List Nat :=
  let w := schedule (blockWords block)
  let st0 : Hash8 := ⟨hs.getD 0 0, hs.getD 1 0, hs.getD 2 0, hs.getD 3 0,
                      hs.getD 4 0, hs.getD 5 0, hs.getD 6 0, hs.getD 7 0⟩
  let st := (List.range 64).foldl (sha256Round w) st0
  [mask32 (hs.getD 0 0 + st.a), mask32 (hs.getD 1 0 + st.b),
   mask32 (hs.getD 2 0 + st.c), mask32 (hs.getD 3 0 + st.d),
   mask32 (hs.getD 4 0 + st.e), mask32 (hs.getD 5 0 + st.f),
   mask32 (hs.getD 6 0 + st.g), mask32 (hs.getD 7 0 + st.h)]

/-- SHA-256 digest (32 bytes) of a byte list. -/
def sha256 (msg : List Nat) : List Nat :=
  let padded := sha256Pad msg
  let nblocks := padded.length / 64
  let blocks := (List.range nblocks).map fun i => (padded.drop (64 * i)).take 64
  (blocks.foldl sha256Block sha256H0).flatMap be32

/-- Lowercase hexadecimal digit (only digits 0–15 ever reach it). -/
def hexChar (n : Nat) : Char :=
  Nat.digitChar n

/-- Two-character lowercase hex of one byte. -/
def byteHex (b : Nat) : List Char := [hexChar (b / 16), hexChar (b % 16)]

/-- `hashlib.sha256(s.encode()).hexdigest()`: the 64-character lowercase hex
digest of a string's UTF-8 bytes. -/
def sha256Hex (s : String) : String :=
  String.mk ((sha256 (utf8 s)).flatMap byteHex)

example : sha256Hex "abc" =
    "ba7816bf8f01cfea414140de5dae2223b00361a396177a9cb410ff61f20015ad" := by
  decide

/-! ## JSON values and Python `json.dumps`

The proof hashes and storage identifiers are all computed over
`json.dumps(d, sort_keys=True)` output, so the embedding reproduces Python's
default rendering: items separated by `", "`, keys and values by `": "`,
object keys sorted lexicographically, ASCII-escaped strings. Decimal numbers
are carried as a scaled integer `m / 10^e` (all numeric literals in the
hashed dictionaries are finite decimals). -/

/-- A JSON leaf value. -/
inductive JAtom where
  | str (s : String)
  | num (m : Int) (e : Nat)
  | bool (b : Bool)
  | null
  deriving DecidableEq

/-- A JSON value one level up: an atom, an array of atoms, or a flat object.
Every dictionary the source serializes and hashes has this shape (values are
scalars or one flat sub-dictionary, e.g. `feature_importance`). -/
inductive JVal where
  | atom (a : JAtom)
  | arr (xs : List JAtom)
  | obj (kvs : List (String × JAtom))
  deriving DecidableEq

/-- A JSON document: the top-level Python dict being dumped. -/
structure JDoc where
  kvs : List (String × JVal)
  deriving DecidableEq

/-- Hex escape `\uXXXX` for a code unit. -/
def u4 (n : Nat) : List Char :=
  ['\\', 'u', hexChar ((n >>> 12) % 16), hexChar ((n >>> 8) % 16),
   hexChar ((n >>> 4) % 16), hexChar (n % 16)]

/-- JSON escaping of one character, as Python's default (`ensure_ascii=True`)
encoder emits it. -/
def jsonEscapeChar (c : Char) : List Char :=
  if c = '"' then ['\\', '"']
  else if c = '\\' then ['\\', '\\']
  else if c = '\n' then ['\\', 'n']
  else if c = '\t' then ['\\', 't']
  else if c = '\r' then ['\\', 'r']
  else if c.toNat = 8 then ['\\', 'b']
  else if c.toNat = 12 then ['\\', 'f']
  else if c.toNat < 0x20 then u4 c.toNat
  else if c.toNat < 0x7F then [c]
  else if c.toNat < 0x10000 then u4 c.toNat
  else
    u4 (0xD800 + (c.toNat - 0x10000) / 0x400) ++ u4 (0xDC00 + (c.toNat - 0x10000) % 0x400)

/-- A JSON string literal with surrounding quotes. -/
def jsonQuote (s : String) : String :=
  String.mk ('"' :: s.data.flatMap jsonEscapeChar ++ ['"'])

/-- Decimal rendering of `m / 10^e` (`42`, `-15`, `0.45`, `-0.15`, ...). -/
def renderNum (m : Int) (e : Nat) : String :=
  if e = 0 then toString m
  else
    let sign := if m < 0 then "-" else ""
    let digits := (Nat.toDigits 10 m.natAbs).map id
    let padded := List.replicate (e + 1 - digits.length) '0' ++ digits
    let k := padded.length - e
    sign ++ String.mk (padded.take k ++ '.' :: padded.drop k)

/-- Lexicographic (code-point) order on character lists. -/
def charListLt : List Char → List Char → Bool
  | [], [] => false
  | [], _ :: _ => true
  | _ :: _, [] => false
  | a :: as, b :: bs =>
      if a < b then true else if b < a then false else charListLt as bs

/-- Lexicographic (code-point) order on strings, Python's `<` on `str`. -/
def strLt (a b : String) : Bool :=
  charListLt a.data b.data

/-- Insert into a key-sorted rendered-pair list (stable). -/
def insertByKey (x : String × String) :
    List (String × String) → List (String × String)
  | [] => [x]
  | y :: ys => if strLt x.1 y.1 then x :: y :: ys else y :: insertByKey x ys

/-- Stable sort of rendered key/value pairs by key (`sort_keys=True`). -/
def sortPairs : List (String × String) → List (String × String)
  | [] => []
  | x :: xs => insertByKey x (sortPairs xs)

/-- Rendering of a JSON leaf. -/
def dumpAtom : JAtom → String
  | .str s => jsonQuote s
  | .num m e => renderNum m e
  | .bool true => "true"
  | .bool false => "false"
  | .null => "null"

/-- Rendering of a sorted flat object from rendered pairs. -/
def dumpObjFrom (pairs : List (String × String)) : String :=
  "\x7b" ++
    String.intercalate ", "
      ((sortPairs pairs).map fun kv => jsonQuote kv.1 ++ ": " ++ kv.2) ++
  "\x7d"

/-- Rendering of an intermediate JSON value. -/
def dumpVal : JVal → String
  | .atom a => dumpAtom a
  | .arr xs => "[" ++ String.intercalate ", " (xs.map dumpAtom) ++ "]"
  | .obj kvs => dumpObjFrom (kvs.map fun kv => (kv.1, dumpAtom kv.2))

/-- Python `json.dumps(d, sort_keys=True)` with the default separators. -/
def pyDumps (d : JDoc) : String :=
  dumpObjFrom (d.kvs.map fun kv => (kv.1, dumpVal kv.2))

example :
    pyDumps ⟨[("b", .atom (.str "x")), ("a", .atom (.num (-45) 2))]⟩ =
      "\x7b\"a\": -0.45, \"b\": \"x\"\x7d" := by
  decide

/-! ## Data model

`ZigguratExplanation`, `ExplanationMethod` and `BlockchainNetwork` are
imported by the bridge from `..blockchain.ziggurat`, a module of this
repository that is not under `src/`; the structures below are modelled from
the spec's §3 `Explanation` record and the construction sites in
`masumi_ziggurat_bridge.py` and `icp_openxai_client.py`, which name every
field. Python `float` quantities are modelled as `ℚ`, optional fields as
`Option`, dictionaries as association lists. -/

inductive ExplanationMethod where
  | shap
  | lime
  | gradient
  | attention
  | custom
  deriving DecidableEq

/-- The `.value` string of an `ExplanationMethod` member. -/
def methodValue : ExplanationMethod → String
  | .shap => "shap"
  | .lime => "lime"
  | .gradient => "gradient"
  | .attention => "attention"
  | .custom => "custom"

inductive BlockchainNetwork where
  | icp
  | cardano
  | ethereum
  | bitcoin
  | ton
  | avalanche
  deriving DecidableEq

/-- Modelled from the spec: the `ZigguratExplanation` dataclass (module
`..blockchain.ziggurat`, not under `src/`), after the spec's §3
`Explanation` record and the construction sites in `src/`. An absent
optional dictionary and an empty one behave identically in the embedded
code (only truthiness and length are consumed), so `feature_importance`,
`decision_path`, `counterfactuals` and `cross_chain_proofs` are plain
lists with `[]` for `None`. -/
structure ZigguratExplanation where
  reasoning : String
  confidence : ℚ
  methodUsed : ExplanationMethod
  blockchainVerified : Bool
  proofHash : Option String
  verificationChain : Option BlockchainNetwork
  transactionId : Option String
  featureImportance : List (String × ℚ)
  decisionPath : List String
  counterfactuals : List String
  processingTimeMs : Nat
  costCycles : Nat
  modelId : Option String
  crossChainProofs : List (String × String)
  deriving DecidableEq

/-- Modelled from the spec: the `MasumiTaskReward` dataclass (module
`..blockchain.masumi_integration`, not under `src/`), after its
construction sites in the tests and `unified_payment_service.py`. -/
structure MasumiTaskReward where
  taskId : String
  agentId : String
  rewardAmount : ℚ
  rewardToken : String
  completionTime : String
  qualityScore : ℚ
  transactionHash : Option String
  deriving DecidableEq

/-! ## `ICPOpenXAIClient._parse_explanation` and `_mock_explanation`
(`src/integrations/icp_openxai_client.py`) -/

/-- The JSON body of a `/explain` response, field by field as
`_parse_explanation` reads it (`data.get(...)`); `none` is an absent key. -/
structure ExplainResponse where
  reasoning : Option String
  confidence : Option ℚ
  method : Option ExplanationMethod
  blockchainVerified : Option Bool
  proofHash : Option String
  transactionId : Option String
  featureImportance : Option (List (String × ℚ))
  decisionPath : Option (List String)
  counterfactuals : Option (List String)
  processingTimeMs : Option Nat
  costCycles : Option Nat
  modelId : Option String
  crossChainProofs : Option (List (String × String))

/-- `_parse_explanation`: builds a `ZigguratExplanation` from the response,
defaulting each absent field, and always stamping
`verification_chain=BlockchainNetwork.ICP`. -/
def parseExplanation (r : ExplainResponse) : ZigguratExplanation where
  reasoning := r.reasoning.getD ""
  confidence := r.confidence.getD 0
  methodUsed := r.method.getD .shap
  blockchainVerified := r.blockchainVerified.getD false
  proofHash := r.proofHash
  verificationChain := some .icp
  transactionId := r.transactionId
  featureImportance := r.featureImportance.getD []
  decisionPath := r.decisionPath.getD []
  counterfactuals := r.counterfactuals.getD []
  processingTimeMs := r.processingTimeMs.getD 0
  costCycles := r.costCycles.getD 0
  modelId := r.modelId
  crossChainProofs := r.crossChainProofs.getD []

/-- `_mock_explanation`: the development fallback explanation
(`dataStr` is Python's rendering of `data` inside the f-string). -/
def mockExplanation (satelliteId dataStr : String)
    (method : ExplanationMethod) : ZigguratExplanation where
  reasoning := "Mock analysis using " ++ methodValue method ++
    " on satellite " ++ satelliteId
  confidence := 85/100
  methodUsed := method
  blockchainVerified := true
  proofHash := some (sha256Hex (satelliteId ++ "-" ++ dataStr))
  verificationChain := some .icp
  transactionId := some ("icp-" ++ strTake satelliteId 8 ++ "-mock")
  featureImportance := [("feature_1", 2/5), ("feature_2", 7/20), ("feature_3", 1/4)]
  decisionPath := []
  counterfactuals := []
  processingTimeMs := 150
  costCycles := 1500000
  modelId := some "ziggurat-mock-v1"
  crossChainProofs := []

/-! ## `MasumiZigguratBridge` (`src/integrations/masumi_ziggurat_bridge.py`) -/

/-- `MasumiZigguratBridge.__init__` default for `min_quality_threshold`. -/
def defaultMinQualityThreshold : ℚ := 7/10

/-- `_calculate_quality_score`: confidence (40%), blockchain verification
(20%), feature-importance coverage (20%), cross-chain proofs (10%),
processing efficiency (10%), capped at 1.0. -/
def calculateQualityScore (e : ZigguratExplanation) : ℚ :=
  let s0 : ℚ := e.confidence * (2/5)
  let s1 := s0 + (if e.blockchainVerified then 1/5 else 0)
  let s2 := s1 + (if e.featureImportance ≠ [] then
    min ((e.featureImportance.length : ℚ) / 5) 1 * (1/5) else 0)
  let s3 := s2 + (if e.crossChainProofs ≠ [] then
    min ((e.crossChainProofs.length : ℚ) / 3) 1 * (1/10) else 0)
  let s4 := s3 + (if e.processingTimeMs < 1000 then 1/10
    else if e.processingTimeMs < 5000 then 1/20 else 0)
  min s4 1

/-- `_generate_proof_hash`: SHA-256 hex digest of the sorted-keys JSON of
`\x7b"data": str(data), "explanation": ..., "agent_id": ..., "timestamp": ...\x7d`
(`dataStr`/`timestamp` are the rendered `str(data)` and ISO timestamp). -/
def generateProofHash (agentId dataStr explanation timestamp : String) : String :=
  sha256Hex (pyDumps ⟨[
    ("data", .atom (.str dataStr)),
    ("explanation", .atom (.str explanation)),
    ("agent_id", .atom (.str agentId)),
    ("timestamp", .atom (.str timestamp))]⟩)

/-- Result record of an explainable task (`ExplainableTaskResult`). -/
structure ExplainableTaskResult where
  taskId : String
  agentId : String
  explanation : ZigguratExplanation
  reward : Option MasumiTaskReward
  qualityScore : ℚ
  verificationProofs : List (String × String)
  totalCostCycles : Nat
  executionTimeMs : Nat
  deriving DecidableEq

/-- `submit_custom_explanation`: wraps a caller-supplied explanation into a
`ZigguratExplanation` (method `CUSTOM`), attaching a proof hash, the
configured primary chain and a `custom-`-prefixed transaction id exactly
when `verify_on_chain` is set. -/
def submitCustomExplanation (agentId : String) (primaryChain : BlockchainNetwork)
    (dataStr explanationText : String) (confidence : ℚ)
    (featureImportance : List (String × ℚ)) (verifyOnChain : Bool)
    (timestamp : String) : ExplainableTaskResult :=
  let proofHash := generateProofHash agentId dataStr explanationText timestamp
  let enhanced : ZigguratExplanation := {
    reasoning := explanationText
    confidence := confidence
    methodUsed := .custom
    blockchainVerified := verifyOnChain
    proofHash := if verifyOnChain then some proofHash else none
    verificationChain := if verifyOnChain then some primaryChain else none
    transactionId := if verifyOnChain then some ("custom-" ++ strTake proofHash 12) else none
    featureImportance := featureImportance
    decisionPath := []
    counterfactuals := []
    processingTimeMs := 100
    costCycles := 500000
    modelId := none
    crossChainProofs := [] }
  { taskId := "custom-" ++ timestamp
    agentId := agentId
    explanation := enhanced
    reward := none
    qualityScore := calculateQualityScore enhanced
    verificationProofs := []
    totalCostCycles := enhanced.costCycles
    executionTimeMs := enhanced.processingTimeMs }

/-- The marketplace/model calls `process_explainable_task` performs, in
order, as an observable trace. -/
inductive BridgeCall where
  | claimTask
  | explainCall
  | submitCompletion
  | claimReward
  deriving DecidableEq

/-- The remote side of each call `process_explainable_task` makes: the
claim result's `success` field, the Ziggurat explanation (or the exception
it raises), and the reward the marketplace returns when claimed. -/
structure TaskOracles where
  claimSuccess : Bool
  explainResult : Except String ZigguratExplanation
  rewardResult : MasumiTaskReward

/-- `process_explainable_task` (without the optional cross-chain
verification branch, i.e. `cross_chain_verify=False`): claim → explain →
score → submit completion → claim reward when the quality threshold is
met; a failed claim raises before anything else, and an explanation
exception reports failure to the marketplace and re-raises. Returns the
result (or error) together with the call trace. -/
def processExplainableTask (minQualityThreshold : ℚ) (agentId taskId : String)
    (executionTimeMs : Nat) (o : TaskOracles) :
    Except String ExplainableTaskResult × List BridgeCall :=
  if o.claimSuccess = false then
    (.error "Failed to claim task", [.claimTask])
  else
    match o.explainResult with
    | .error e => (.error e, [.claimTask, .explainCall, .submitCompletion])
    | .ok expl =>
      let qualityScore := calculateQualityScore expl
      let reward :=
        if qualityScore ≥ minQualityThreshold then some o.rewardResult else none
      let result : ExplainableTaskResult := {
        taskId := taskId
        agentId := agentId
        explanation := expl
        reward := reward
        qualityScore := qualityScore
        verificationProofs := []
        totalCostCycles := expl.costCycles
        executionTimeMs := executionTimeMs }
      (.ok result,
        [.claimTask, .explainCall, .submitCompletion] ++
          (if qualityScore ≥ minQualityThreshold then [.claimReward] else []))

/-- Who currently holds a marketplace task. -/
inductive ClaimState where
  | unclaimed
  | claimedBy (agent : String)
  deriving DecidableEq

/-- Modelled from the spec: `MasumiNetworkClient.claim_task` (module
`..blockchain.masumi_integration`, not under `src/`). Per §4.10, a claim
on a task already claimed by this same agent reports success (idempotent);
a task claimed by another agent reports failure. -/
def specClaimTask (selfAgent : String) : ClaimState → Bool
  | .unclaimed => true
  | .claimedBy a => a = selfAgent

/-- `process_explainable_task` driven by the spec-modelled marketplace
claim semantics for a task in claim state `st`. -/
def processTaskWithClaimState (minQualityThreshold : ℚ) (agentId taskId : String)
    (executionTimeMs : Nat) (st : ClaimState)
    (explainResult : Except String ZigguratExplanation)
    (rewardResult : MasumiTaskReward) :
    Except String ExplainableTaskResult × List BridgeCall :=
  processExplainableTask minQualityThreshold agentId taskId executionTimeMs
    ⟨specClaimTask agentId st, explainResult, rewardResult⟩

/-! ## `ZigguratIntelligenceEngine._store_on_icp`
(`src/core/intelligence_engine.py`)

The stored verification hash is
`f"icp_hash_\x7bhash(explanation_json) % 1000000:06d\x7d"` where `hash` is
Python's builtin (seed-dependent) hash; it is a parameter `pyHash` of the
model, with Python's nonnegative `%` as `Int.emod`. -/

/-- `f"\x7bn:06d\x7d"` for `0 ≤ n < 10^6`: six zero-padded decimal digits. -/
def zeroPad6 (n : Nat) : String :=
  String.mk ([n / 100000 % 10, n / 10000 % 10, n / 1000 % 10,
              n / 100 % 10, n / 10 % 10, n % 10].map hexChar)

/-- `_store_on_icp`: serializes the explanation dict with sorted keys and
returns `"icp_hash_"` plus the builtin hash modulo 10^6, zero-padded. -/
def storeOnIcp (pyHash : String → Int) (explanation : JDoc) : String :=
  let explanationJson := pyDumps explanation
  "icp_hash_" ++ zeroPad6 ((pyHash explanationJson).emod 1000000).toNat

/-- The spec's §4.4 canonicalization and proof hash, stated from the spec's
words for comparison with the code: UTF-8, keys sorted lexicographically,
`proof_hash` and `cross_chain_proofs` excluded from the pre-image,
`proof_hash = SHA-256(canonical_bytes)` as a lowercase hex digest. -/
def specCanonicalHash (d : JDoc) : String :=
  sha256Hex (pyDumps ⟨d.kvs.filter
    (fun kv => kv.1 ≠ "proof_hash" && kv.1 ≠ "cross_chain_proofs")⟩)

/-- The spec's §4.4 prefixed string form of a proof hash. -/
def specProofString (d : JDoc) : String :=
  "sha256:" ++ specCanonicalHash d

/-- The SHAP explanation dict built by
`_generate_shap_explanation` for credit-score inputs
(`intelligence_engine.py` lines 151-161), the dict `_store_on_icp` hashes
on the demo loan flow (credit score 720). -/
def shapCreditExplanation : JDoc :=
  ⟨[("reasoning", .atom (.str ("Loan approval based on strong credit profile. Credit score of 720 is the strongest positive factor, indicating reliable payment history and low default risk."))),
    ("feature_importance", .obj [
      ("credit_score", .num 45 2),
      ("income", .num 28 2),
      ("employment_length", .num 22 2),
      ("debt_ratio", .num (-15) 2)]),
    ("method_details", .atom (.str "SHAP values calculated using game theory to determine each feature's contribution to the final decision."))]⟩

/-! ## `UnifiedPaymentService` (`src/integrations/unified_payment_service.py`)

The service keeps `_payments` (a dict of payment records) and
`_pending_settlements` (a list of references into the same records). The
state is modelled as the ordered list of record objects, each tagged with
whether it sits in the settlement queue; dict lookup by id and queue
membership are recovered from that list. Timestamps are the rendered
strings the code would produce, passed in as parameters. `Decimal`
arithmetic is modelled as exact `ℚ` (all amounts stay far below the
28-significant-digit context). -/

inductive PaymentType where
  | aiService
  | taskReward
  | subscription
  | crossChain
  | explanationFee
  deriving DecidableEq

/-- Modelled from the spec: the `PaymentMethod` members the service uses
(`..billing.models`, not under `src/`), after the call sites, the rate
table and the `.value` strings the tests exhibit. -/
inductive PaymentMethod where
  | icp
  | ton
  | cardano
  deriving DecidableEq

/-- `payment_method.value`. -/
def paymentMethodValue : PaymentMethod → String
  | .icp => "icp"
  | .ton => "ton"
  | .cardano => "cardano"

/-- A `UnifiedPayment` record (`metadata` carried as a JSON document). -/
structure UnifiedPayment where
  paymentId : String
  paymentType : PaymentType
  amount : ℚ
  currency : String
  sourcePlatform : String
  destinationPlatform : String
  senderId : String
  recipientId : String
  blockchainNetwork : String
  transactionHash : Option String
  status : String
  createdAt : String
  completedAt : Option String
  metadata : JDoc
  deriving DecidableEq

/-- ASCII `str.upper()`. -/
def pyUpper (s : String) : String :=
  String.mk (s.data.map fun c =>
    if 'a' ≤ c ∧ c ≤ 'z' then Char.ofNat (c.toNat - 32) else c)

/-- ASCII `str.lower()`. -/
def pyLower (s : String) : String :=
  String.mk (s.data.map fun c =>
    if 'A' ≤ c ∧ c ≤ 'Z' then Char.ofNat (c.toNat + 32) else c)

/-- `_generate_payment_id`: first 16 hex characters of
`sha256(f"\x7bprefix\x7d-\x7buser_id\x7d-\x7btimestamp\x7d")`. -/
def generatePaymentId (pfx userId timestamp : String) : String :=
  strTake (sha256Hex (pfx ++ "-" ++ userId ++ "-" ++ timestamp)) 16

/-- The hard-coded `cost_per_million_cycles` table (with the dict's
`Decimal("1.0")` default unreachable over these members). -/
def costPerMillionCycles : PaymentMethod → ℚ
  | .icp => 1/10
  | .ton => 1/4
  | .cardano => 5/4

/-- `_get_blockchain_for_token`. -/
def getBlockchainForToken (token : String) : String :=
  (([("MASUMI", "cardano"), ("ICP", "icp"), ("TON", "ton"),
     ("ADA", "cardano"), ("NURU", "cardano")] :
      List (String × String)).lookup (pyUpper token)).getD "unknown"

/-- The hard-coded `_exchange_rates` table. -/
def exchangeRates : List (String × List (String × ℚ)) :=
  [("MASUMI", [("USD", 1/10), ("ICP", 1/50), ("TON", 1/20), ("ADA", 1/4)]),
   ("ICP", [("USD", 5), ("MASUMI", 50), ("TON", 5/2), ("ADA", 25/2)]),
   ("TON", [("USD", 2), ("MASUMI", 20), ("ICP", 2/5), ("ADA", 5)]),
   ("ADA", [("USD", 2/5), ("MASUMI", 4), ("ICP", 2/25), ("TON", 1/5)])]

/-- `_get_exchange_rate`: 1.0 for an identical pair, else the table entry,
defaulting to 1.0 when either the source currency or the pair is absent. -/
def getExchangeRate (fromCurrency toCurrency : String) : ℚ :=
  if fromCurrency = toCurrency then 1
  else
    let fromRates := (exchangeRates.lookup (pyUpper fromCurrency)).getD []
    (fromRates.lookup (pyUpper toCurrency)).getD 1

/-- Whether the pair is actually configured in `_exchange_rates`. -/
def pairConfigured (fromCurrency toCurrency : String) : Bool :=
  (((exchangeRates.lookup (pyUpper fromCurrency)).getD []).lookup
    (pyUpper toCurrency)).isSome

/-- `process_ai_service_payment`, through the final record: amount is
`(Decimal(cycles_used) / Decimal(1_000_000)) * rate`, and the transaction
service's response (`txSuccess`, `txId`) decides completed/failed. -/
def processAiServicePayment (userId serviceType : String) (cyclesUsed : Nat)
    (pm : PaymentMethod) (explanationId : Option String)
    (txSuccess : Bool) (txId : String) (now : String) : UnifiedPayment :=
  let currency := pyUpper (paymentMethodValue pm)
  let rate := costPerMillionCycles pm
  let amount := ((cyclesUsed : ℚ) / 1000000) * rate
  { paymentId := generatePaymentId "ai" userId now
    paymentType := .aiService
    amount := amount
    currency := currency
    sourcePlatform := "user_wallet"
    destinationPlatform := "ziggurat"
    senderId := userId
    recipientId := "ziggurat_treasury"
    blockchainNetwork := pyLower currency
    transactionHash := if txSuccess then some txId else none
    status := if txSuccess then "completed" else "failed"
    createdAt := now
    completedAt := if txSuccess then some now else none
    metadata := ⟨[("service_type", .atom (.str serviceType)),
                  ("cycles_used", .atom (.num cyclesUsed 0)),
                  ("explanation_id",
                    .atom (match explanationId with
                           | some i => .str i
                           | none => .null))]⟩ }

/-- The spec's §4.9 amount formula, stated from the spec's words for
comparison: `ceil(cycles / 1_000_000) × rate[method]`. -/
def specCeilAmount (cyclesUsed : Nat) (pm : PaymentMethod) : ℚ :=
  (⌈(cyclesUsed : ℚ) / 1000000⌉ : ℤ) * costPerMillionCycles pm

/-- One payment record object plus whether the settlement queue holds a
reference to it. -/
structure PayObj where
  pay : UnifiedPayment
  queued : Bool
  deriving DecidableEq

instance : Inhabited PayObj :=
  ⟨⟨{ paymentId := "", paymentType := .aiService, amount := 0, currency := "",
      sourcePlatform := "", destinationPlatform := "", senderId := "",
      recipientId := "", blockchainNetwork := "", transactionHash := none,
      status := "", createdAt := "", completedAt := none,
      metadata := ⟨[]⟩ }, false⟩⟩

/-- The payment-service state: every record ever stored, in creation
order. -/
structure PayState where
  objs : List PayObj
  deriving DecidableEq

def initPayState : PayState := ⟨[]⟩

/-- `process_ai_service_payment` as a state transition (returns the record
it stored). -/
def aiServicePaymentOp (userId serviceType : String) (cyclesUsed : Nat)
    (pm : PaymentMethod) (explanationId : Option String)
    (txSuccess : Bool) (txId : String) (now : String) (s : PayState) :
    UnifiedPayment × PayState :=
  let p := processAiServicePayment userId serviceType cyclesUsed pm
    explanationId txSuccess txId now
  (p, ⟨s.objs ++ [⟨p, false⟩]⟩)

/-- `distribute_task_reward` as a state transition: completed when the
reward carries a transaction hash, else pending and (with cross-chain
enabled) queued for settlement. -/
def distributeTaskRewardOp (r : MasumiTaskReward) (enableCrossChain : Bool)
    (now : String) (s : PayState) : UnifiedPayment × PayState :=
  let hasTx := r.transactionHash.isSome
  let p : UnifiedPayment := {
    paymentId := generatePaymentId "reward" r.agentId now
    paymentType := .taskReward
    amount := r.rewardAmount
    currency := r.rewardToken
    sourcePlatform := "masumi"
    destinationPlatform := "agent_wallet"
    senderId := "masumi_treasury"
    recipientId := r.agentId
    blockchainNetwork := getBlockchainForToken r.rewardToken
    transactionHash := r.transactionHash
    status := if hasTx then "completed" else "pending"
    createdAt := now
    completedAt := if hasTx then some now else none
    metadata := ⟨[("task_id", .atom (.str r.taskId)),
                  ("quality_score", .atom (.str (toString r.qualityScore))),
                  ("completion_time", .atom (.str r.completionTime))]⟩ }
  (p, ⟨s.objs ++ [⟨p, enableCrossChain && p.status = "pending"⟩]⟩)

/-- `process_cross_chain_transfer` as a state transition: a pending debit
of `amount` and a pending credit of `amount × rate`, both queued. -/
def crossChainTransferOp (fromCurrency toCurrency : String) (amount : ℚ)
    (userId reason : String) (now : String) (s : PayState) :
    (UnifiedPayment × UnifiedPayment) × PayState :=
  let exchangeRate := getExchangeRate fromCurrency toCurrency
  let convertedAmount := amount * exchangeRate
  let sourcePayment : UnifiedPayment := {
    paymentId := generatePaymentId "cross_out" userId now
    paymentType := .crossChain
    amount := amount
    currency := fromCurrency
    sourcePlatform := pyLower fromCurrency ++ "_wallet"
    destinationPlatform := "cross_chain_bridge"
    senderId := userId
    recipientId := "bridge_escrow"
    blockchainNetwork := getBlockchainForToken fromCurrency
    transactionHash := none
    status := "pending"
    createdAt := now
    completedAt := none
    metadata := ⟨[("reason", .atom (.str reason)),
                  ("exchange_rate", .atom (.str (toString exchangeRate))),
                  ("destination_currency", .atom (.str toCurrency))]⟩ }
  let destPayment : UnifiedPayment := {
    paymentId := generatePaymentId "cross_in" userId now
    paymentType := .crossChain
    amount := convertedAmount
    currency := toCurrency
    sourcePlatform := "cross_chain_bridge"
    destinationPlatform := pyLower toCurrency ++ "_wallet"
    senderId := "bridge_escrow"
    recipientId := userId
    blockchainNetwork := getBlockchainForToken toCurrency
    transactionHash := none
    status := "pending"
    createdAt := now
    completedAt := none
    metadata := ⟨[("reason", .atom (.str reason)),
                  ("source_currency", .atom (.str fromCurrency)),
                  ("source_amount", .atom (.str (toString amount))),
                  ("exchange_rate", .atom (.str (toString exchangeRate)))]⟩ }
  ((sourcePayment, destPayment),
   ⟨s.objs ++ [⟨sourcePayment, true⟩, ⟨destPayment, true⟩]⟩)

/-- `process_batch_settlement` as a state transition: every queued payment
is marked completed with a batch transaction hash, and the settlement
queue is cleared of completed payments. -/
def processBatchSettlementOp (now : String) (s : PayState) : PayState :=
  ⟨s.objs.map fun o =>
    if o.queued then
      ⟨{ o.pay with
          status := "completed"
          completedAt := some now
          transactionHash := some (o.pay.blockchainNetwork ++ "-batch-" ++ now) },
        false⟩
    else o⟩

/-- One payment-service operation with its inputs. -/
inductive PayOp where
  | ai (userId serviceType : String) (cyclesUsed : Nat) (pm : PaymentMethod)
      (explanationId : Option String) (txSuccess : Bool) (txId now : String)
  | reward (r : MasumiTaskReward) (enableCrossChain : Bool) (now : String)
  | transfer (fromCurrency toCurrency : String) (amount : ℚ)
      (userId reason now : String)
  | settle (now : String)

/-- Apply one operation to the service state. -/
def applyPayOp : PayOp → PayState → PayState
  | .ai u st c pm e ok tx now, s => (aiServicePaymentOp u st c pm e ok tx now s).2
  | .reward r ecc now, s => (distributeTaskRewardOp r ecc now s).2
  | .transfer f t a u r now, s => (crossChainTransferOp f t a u r now s).2
  | .settle now, s => processBatchSettlementOp now s

/-- Run a sequence of operations from a state. -/
def runPayOps (ops : List PayOp) (s : PayState) : PayState :=
  ops.foldl (fun s op => applyPayOp op s) s

/-- The status of the `i`-th record ever created. -/
def statusAt (s : PayState) (i : Nat) : String :=
  ((s.objs.getD i default).pay).status

/-- A settled or failed status. -/
def terminalStatus (st : String) : Prop :=
  st = "completed" ∨ st = "failed"

/-- Queue discipline: every queued payment is still pending. -/
def payInv (s : PayState) : Prop :=
  ∀ o ∈ s.objs, o.queued = true → o.pay.status = "pending"

/-! ## `ICPClient` store / retrieve / batch (`src/integrations/icp_client.py`)

`store_data` hashes the payload into a storage id and calls the satellite
(`_store_data_on_blockchain`); the satellite side of each call is an
explicit outcome parameter (`Except`: the transaction info returned, or
the exception raised — network errors in production, never in the mock).
`retrieve_data` answers from `_query_blockchain_data`, which returns a
fixed mock record for any id with the `storage_`-prefix and `None`
otherwise. -/

/-- `_generate_storage_id`: `storage_` plus the first 16 hex characters of
`sha256(f"\x7btimestamp\x7d_\x7bjson.dumps(data, sort_keys=True)\x7d")`
(`now` is the rendered `int(time.time())`). -/
def generateStorageId (now : String) (d : JDoc) : String :=
  "storage_" ++ strTake (sha256Hex (now ++ "_" ++ pyDumps d)) 16

/-- The outcome of `store_data`: the dict it returns. -/
structure StoreResult where
  success : Bool
  storageId : Option String
  transactionId : Option String
  error : Option String
  deriving DecidableEq

/-- `store_data`: on a successful satellite call, a success record holding
the generated storage id and the transaction id; on an exception, a
failure record with the error string. -/
def storeData (outcome : Except String String) (now : String) (d : JDoc) :
    StoreResult :=
  match outcome with
  | .ok txId => ⟨true, some (generateStorageId now d), some txId, none⟩
  | .error e => ⟨false, none, none, some e⟩

/-- `_query_blockchain_data`'s fixed mock record for a found id
(`nowEpoch` is `int(time.time())`). -/
def mockStoredRecord (storageId : String) (nowEpoch : Int) : JDoc :=
  ⟨[("storage_id", .atom (.str storageId)),
    ("data", .obj [("mock", .str "stored_data"), ("value", .num 42 0)]),
    ("timestamp", .atom (.num (nowEpoch - 900) 0)),
    ("block_height", .atom (.num 12350 0))]⟩

/-- `retrieve_data`: the mock query answers with the fixed record for any
`storage_`-prefixed id and not-found otherwise. -/
def retrieveData (nowEpoch : Int) (storageId : String) : Option JDoc :=
  if pyStartsWith storageId "storage_" then
    some (mockStoredRecord storageId nowEpoch)
  else none

/-- `batch_store`: one `store_data` per input item, gathered in input
order (`store_data` catches every exception itself, so the
`return_exceptions` branch of the gather never fires). `outcomes i` is the
satellite's response to the `i`-th call. -/
def batchStore (outcomes : Nat → Except String String) (now : String)
    (items : List JDoc) : List StoreResult :=
  items.enum.map fun p => storeData (outcomes p.1) now p.2

/-! ## Supporting lemmas -/

theorem sha256Block_length (hs block : List Nat) :
    (sha256Block hs block).length = 8 := rfl

theorem foldl_sha256Block_length (l : List (List Nat)) (init : List Nat)
    (h : init.length = 8) : (l.foldl sha256Block init).length = 8 := by
  induction l generalizing init with
  | nil => exact h
  | cons b bs ih => exact ih _ (sha256Block_length init b)

theorem be32_length (n : Nat) : (be32 n).length = 4 := rfl

theorem flatMap_be32_length (l : List Nat) :
    (l.flatMap be32).length = 4 * l.length := by
  induction l with
  | nil => rfl
  | cons x xs ih =>
      simp only [List.flatMap_cons, List.length_append, ih, be32_length,
        List.length_cons]
      ring

theorem sha256_length (msg : List Nat) : (sha256 msg).length = 32 := by
  simp only [sha256]
  rw [flatMap_be32_length, foldl_sha256Block_length _ _ (by rfl)]

theorem byteHex_length (b : Nat) : (byteHex b).length = 2 := rfl

theorem flatMap_byteHex_length (l : List Nat) :
    (l.flatMap byteHex).length = 2 * l.length := by
  induction l with
  | nil => rfl
  | cons x xs ih =>
      simp only [List.flatMap_cons, List.length_append, ih, byteHex_length,
        List.length_cons]
      ring

/-- Every SHA-256 hex digest has exactly 64 characters. -/
theorem sha256Hex_length (s : String) : (sha256Hex s).length = 64 := by
  show ((sha256 (utf8 s)).flatMap byteHex).length = 64
  rw [flatMap_byteHex_length, sha256_length]

theorem zeroPad6_length (n : Nat) : (zeroPad6 n).length = 6 := rfl

/-- The spec-side canonical digest always has 64 characters. -/
theorem specCanonicalHash_length (d : JDoc) :
    (specCanonicalHash d).length = 64 :=
  sha256Hex_length _

/-- The engine's stored verification hash always has 15 characters. -/
theorem storeOnIcp_length (pyHash : String → Int) (d : JDoc) :
    (storeOnIcp pyHash d).length = 15 := by
  show ((("icp_hash_" : String)) ++ _).length = 15
  rw [String.length_append, zeroPad6_length]
  rfl

/-! ## C1 — proof identifier versus canonical SHA-256 -/

/-- C1 fails on the code: for the SHAP credit-score explanation the engine
anchors (demo loan flow), the stored identifier `_store_on_icp` produces
(builtin hash rendered as `icp_hash_`+6 digits; instantiated here at a
builtin hash returning 0) is neither the SHA-256 hex digest of the spec's
canonical serialization of that explanation nor the `"sha256:"`-prefixed
form the claim says is used. -/
theorem C1_counterexample :
    storeOnIcp (fun _ => 0) shapCreditExplanation ≠
        specCanonicalHash shapCreditExplanation ∧
      storeOnIcp (fun _ => 0) shapCreditExplanation ≠
        specProofString shapCreditExplanation ∧
      pyStartsWith (storeOnIcp (fun _ => 0) shapCreditExplanation) "sha256:"
        = false := by
  refine ⟨?_, ?_, by decide⟩
  · intro h
    have h15 := storeOnIcp_length (fun _ => 0) shapCreditExplanation
    rw [h, specCanonicalHash_length] at h15
    exact absurd h15 (by norm_num)
  · intro h
    have h15 := storeOnIcp_length (fun _ => 0) shapCreditExplanation
    rw [h, specProofString, String.length_append, specCanonicalHash_length,
      show ("sha256:" : String).length = 7 from rfl] at h15
    exact absurd h15 (by norm_num)

/-- C1 amended: the engine's stored identifier is `"icp_hash_"` plus six
decimal digits of the builtin hash (15 characters, never a 64-character
canonical SHA-256 digest and never `"sha256:"`-prefixed), whatever the
seed-dependent builtin hash is; and the bridge's custom proof hash is the
bare 64-character SHA-256 hex digest of the
`\x7bagent_id, data, explanation, timestamp\x7d` JSON, never equal to a
`"sha256:"`-prefixed digest string. -/
theorem C1_amended_hash_forms (pyHash : String → Int) (d d' : JDoc)
    (agentId dataStr explanationText timestamp : String) :
    storeOnIcp pyHash d ≠ specCanonicalHash d' ∧
      storeOnIcp pyHash d ≠ specProofString d' ∧
      (generateProofHash agentId dataStr explanationText timestamp).length = 64 ∧
      ∀ h : String, h.length = 64 →
        generateProofHash agentId dataStr explanationText timestamp ≠
          "sha256:" ++ h := by
  refine ⟨?_, ?_, sha256Hex_length _, ?_⟩
  · intro h
    have h15 := storeOnIcp_length pyHash d
    rw [h, specCanonicalHash_length] at h15
    exact absurd h15 (by norm_num)
  · intro h
    have h15 := storeOnIcp_length pyHash d
    rw [h, specProofString, String.length_append, specCanonicalHash_length,
      show ("sha256:" : String).length = 7 from rfl] at h15
    exact absurd h15 (by norm_num)
  · intro h hlen heq
    have h64 : (generateProofHash agentId dataStr explanationText
        timestamp).length = 64 := sha256Hex_length _
    rw [heq, String.length_append, hlen,
      show ("sha256:" : String).length = 7 from rfl] at h64
    exact absurd h64 (by norm_num)

/-- Witness for `C1_amended_hash_forms`: instantiated at the demo
explanation and, for the inner hypothesis, at the concrete 64-character
digest of the empty document. -/
theorem C1_amended_witness :
    storeOnIcp (fun _ => 0) shapCreditExplanation ≠
        specCanonicalHash shapCreditExplanation ∧
      generateProofHash "a" "d" "x" "t" ≠
        "sha256:" ++ specCanonicalHash ⟨[]⟩ :=
  ⟨(C1_amended_hash_forms (fun _ => 0) shapCreditExplanation
      shapCreditExplanation "a" "d" "x" "t").1,
   (C1_amended_hash_forms (fun _ => 0) shapCreditExplanation
      shapCreditExplanation "a" "d" "x" "t").2.2.2
    (specCanonicalHash ⟨[]⟩) (specCanonicalHash_length ⟨[]⟩)⟩

/-! ## C2 — `blockchain_verified` implies proof fields present -/

/-- C2 fails on the code: `_parse_explanation` copies
`blockchain_verified` straight from the response, so a response claiming
`blockchain_verified=true` without a `proof_hash` parses to a record with
the flag set and no proof hash. -/
theorem C2_counterexample :
    (parseExplanation ⟨none, none, none, some true, none, none, none,
        none, none, none, none, none, none⟩).blockchainVerified = true ∧
      (parseExplanation ⟨none, none, none, some true, none, none, none,
        none, none, none, none, none, none⟩).proofHash = none :=
  ⟨rfl, rfl⟩

/-- C2 amended: explanations built by `submit_custom_explanation` and by
the mock generator satisfy the invariant (`blockchain_verified` implies a
proof hash and a verification chain present), and parsed explanations
always carry a verification chain (`ICP`); but a parsed explanation's
proof hash merely mirrors the response and can be absent with the flag
set. -/
theorem C2_amended_invariant (agentId : String)
    (primaryChain : BlockchainNetwork) (dataStr explanationText : String)
    (confidence : ℚ) (featureImportance : List (String × ℚ))
    (verifyOnChain : Bool) (timestamp : String)
    (satelliteId mockData : String) (method : ExplanationMethod)
    (r : ExplainResponse) :
    ((submitCustomExplanation agentId primaryChain dataStr explanationText
        confidence featureImportance verifyOnChain timestamp).explanation.blockchainVerified = true →
      (submitCustomExplanation agentId primaryChain dataStr explanationText
        confidence featureImportance verifyOnChain timestamp).explanation.proofHash.isSome = true ∧
      (submitCustomExplanation agentId primaryChain dataStr explanationText
        confidence featureImportance verifyOnChain timestamp).explanation.verificationChain.isSome = true) ∧
    ((mockExplanation satelliteId mockData method).blockchainVerified = true ∧
      (mockExplanation satelliteId mockData method).proofHash.isSome = true ∧
      (mockExplanation satelliteId mockData method).verificationChain.isSome = true) ∧
    (parseExplanation r).verificationChain = some .icp := by
  refine ⟨?_, ⟨rfl, rfl, rfl⟩, rfl⟩
  intro h
  cases verifyOnChain with
  | false => exact absurd h (by simp [submitCustomExplanation])
  | true => exact ⟨rfl, rfl⟩

/-- Witness for `C2_amended_invariant` at a concrete verified custom
explanation. -/
theorem C2_amended_witness :
    (submitCustomExplanation "a" .icp "d" "x" (9/10) [] true
        "t").explanation.proofHash.isSome = true :=
  ((C2_amended_invariant "a" .icp "d" "x" (9/10) [] true "t" "sat" "md"
    .shap ⟨none, none, none, none, none, none, none, none, none, none,
      none, none, none⟩).1 rfl).1

/-! ## C3 — reward iff quality threshold -/

/-- C3: in `process_explainable_task`, once the claim succeeded and the
explanation was produced, a marketplace reward claim is issued iff the
computed quality score reaches the configured minimum threshold; the
completion is submitted either way, and below the threshold the returned
result's reward field is `None` (above it, it is the claimed reward). -/
theorem C3_reward_iff_threshold (minQualityThreshold : ℚ)
    (agentId taskId : String) (executionTimeMs : Nat) (o : TaskOracles)
    (hclaim : o.claimSuccess = true) (expl : ZigguratExplanation)
    (hexpl : o.explainResult = .ok expl) :
    (BridgeCall.claimReward ∈
        (processExplainableTask minQualityThreshold agentId taskId
          executionTimeMs o).2 ↔
      calculateQualityScore expl ≥ minQualityThreshold) ∧
    BridgeCall.submitCompletion ∈
      (processExplainableTask minQualityThreshold agentId taskId
        executionTimeMs o).2 ∧
    ∀ r, (processExplainableTask minQualityThreshold agentId taskId
        executionTimeMs o).1 = .ok r →
      r.reward = (if calculateQualityScore expl ≥ minQualityThreshold
        then some o.rewardResult else none) := by
  unfold processExplainableTask
  rw [hclaim, hexpl]
  simp only [Bool.true_eq_false, if_false]
  by_cases hq : calculateQualityScore expl ≥ minQualityThreshold
  · simp only [hq, if_true]
    refine ⟨by simp, by simp, ?_⟩
    intro r hr
    cases hr
    simp [hq]
  · simp only [hq, if_false]
    refine ⟨by simp [hq], by simp, ?_⟩
    intro r hr
    cases hr
    simp [hq]

/-- Witness for `C3_reward_iff_threshold`: a concrete run (mock-quality
explanation, default 0.7 threshold) in which the score reaches the
threshold and the reward is claimed. -/
theorem C3_witness :
    BridgeCall.claimReward ∈
      (processExplainableTask defaultMinQualityThreshold "agent" "task" 5
        ⟨true, .ok (mockExplanation "sat" "d" .shap),
          ⟨"task", "agent", 25, "MASUMI", "t", 85/100, none⟩⟩).2 :=
  (C3_reward_iff_threshold defaultMinQualityThreshold "agent" "task" 5
    ⟨true, .ok (mockExplanation "sat" "d" .shap),
      ⟨"task", "agent", 25, "MASUMI", "t", 85/100, none⟩⟩ rfl
    (mockExplanation "sat" "d" .shap) rfl).1.mpr (by
      show (7 : ℚ)/10 ≤ calculateQualityScore (mockExplanation "sat" "d" .shap)
      have hcond : ¬ ([("feature_1", (2:ℚ)/5), ("feature_2", 7/20),
          ("feature_3", 1/4)] = ([] : List (String × ℚ))) := by simp
      norm_num [calculateQualityScore, mockExplanation, hcond])

/-! ## C4 — idempotent claim by the same agent, denial for another -/

/-- C4 (with `claim_task` modelled from the spec, the marketplace client
being outside `src/`): claiming a task already claimed by this same agent
reports success, so processing continues to the model call; a task claimed
by another agent fails the claim, the operation errors out before any
model call. -/
theorem C4_claim_semantics (minQualityThreshold : ℚ)
    (agentId taskId : String) (executionTimeMs : Nat)
    (explainResult : Except String ZigguratExplanation)
    (rewardResult : MasumiTaskReward) (other : String)
    (hother : other ≠ agentId) :
    (BridgeCall.explainCall ∈
        (processTaskWithClaimState minQualityThreshold agentId taskId
          executionTimeMs (.claimedBy agentId) explainResult rewardResult).2) ∧
    ((processTaskWithClaimState minQualityThreshold agentId taskId
        executionTimeMs (.claimedBy other) explainResult rewardResult).1 =
      .error "Failed to claim task") ∧
    (BridgeCall.explainCall ∉
        (processTaskWithClaimState minQualityThreshold agentId taskId
          executionTimeMs (.claimedBy other) explainResult rewardResult).2) := by
  have hself : specClaimTask agentId (.claimedBy agentId) = true := by
    simp [specClaimTask]
  have hoth : specClaimTask agentId (.claimedBy other) = false := by
    simp [specClaimTask, hother]
  unfold processTaskWithClaimState processExplainableTask
  refine ⟨?_, ?_, ?_⟩
  · simp only [hself, Bool.true_eq_false, if_false]
    cases explainResult with
    | error e => simp
    | ok expl =>
        by_cases hq : calculateQualityScore expl ≥ minQualityThreshold <;>
          simp [hq]
  · simp only [hoth, if_true]
  · simp only [hoth, if_true]
    simp

/-- Witness for `C4_claim_semantics` at a concrete pair of agents. -/
theorem C4_witness :
    (processTaskWithClaimState defaultMinQualityThreshold "agent-a" "task" 5
        (.claimedBy "agent-b") (.ok (mockExplanation "sat" "d" .shap))
        ⟨"task", "agent-a", 25, "MASUMI", "t", 85/100, none⟩).1 =
      .error "Failed to claim task" :=
  (C4_claim_semantics defaultMinQualityThreshold "agent-a" "task" 5
    (.ok (mockExplanation "sat" "d" .shap))
    ⟨"task", "agent-a", 25, "MASUMI", "t", 85/100, none⟩ "agent-b"
    (by decide)).2.1

/-! ## C5 — AI-usage amount: exact division, no ceiling -/

/-- C5 fails on the code: for 500 000 cycles paid in ICP the code charges
`(500000 / 1 000 000) × 0.1 = 0.05` ICP, while the claimed
`ceil(cycles / 1 000 000) × rate` formula gives `1 × 0.1 = 0.1`. -/
theorem C5_counterexample :
    (processAiServicePayment "u" "explanation" 500000 .icp none true "tx"
        "100.0").amount = 1/20 ∧
      specCeilAmount 500000 .icp = 1/10 ∧
      (processAiServicePayment "u" "explanation" 500000 .icp none true "tx"
        "100.0").amount ≠ specCeilAmount 500000 .icp := by
  have hceil : (⌈(500000 : ℚ) / 1000000⌉ : ℤ) = 1 := by
    rw [Int.ceil_eq_iff]
    norm_num
  have h1 : (processAiServicePayment "u" "explanation" 500000 .icp none true
      "tx" "100.0").amount = 1/20 := by
    norm_num [processAiServicePayment, costPerMillionCycles]
  have h2 : specCeilAmount 500000 .icp = 1/10 := by
    simp [specCeilAmount, hceil, costPerMillionCycles]
  refine ⟨h1, h2, ?_⟩
  intro h
  rw [h1, h2] at h
  norm_num at h

/-- C5 amended: the charged amount is the exact
`(cycles / 1 000 000) × rate[method]` in exact decimal arithmetic — with no
ceiling — which agrees with the claimed formula exactly when the cycle
count is a whole multiple of one million. -/
theorem C5_amended_amount (userId serviceType : String) (cyclesUsed : Nat)
    (pm : PaymentMethod) (explanationId : Option String) (txSuccess : Bool)
    (txId now : String) :
    (processAiServicePayment userId serviceType cyclesUsed pm explanationId
        txSuccess txId now).amount =
      (cyclesUsed : ℚ) * costPerMillionCycles pm / 1000000 ∧
    (1000000 ∣ cyclesUsed →
      (processAiServicePayment userId serviceType cyclesUsed pm explanationId
        txSuccess txId now).amount = specCeilAmount cyclesUsed pm) := by
  constructor
  · show ((cyclesUsed : ℚ) / 1000000) * costPerMillionCycles pm = _
    ring
  · rintro ⟨k, rfl⟩
    show (((1000000 * k : ℕ) : ℚ) / 1000000) * costPerMillionCycles pm = _
    rw [specCeilAmount]
    push_cast
    rw [mul_div_cancel_left₀ (k : ℚ) (show (1000000 : ℚ) ≠ 0 by norm_num),
      Int.ceil_natCast]
    push_cast
    ring

/-- Witness for `C5_amended_amount` at 5 000 000 cycles in ICP (the
integration test's example: 0.5 ICP). -/
theorem C5_amended_witness :
    (processAiServicePayment "test-user" "explanation" 5000000 .icp none
        true "test-tx-123" "100.0").amount = specCeilAmount 5000000 .icp :=
  (C5_amended_amount "test-user" "explanation" 5000000 .icp none true
    "test-tx-123" "100.0").2 ⟨5, rfl⟩

/-! ## C6 — `record_*` idempotency -/

/-- C6 fails on the code: `process_ai_service_payment` called twice with
identical arguments (at two successive timestamps) does not return the
existing record — it creates and stores a second, distinct record with a
fresh timestamp-derived payment id, leaving two distinct entries in
`_payments`. -/
theorem C6_counterexample :
    (aiServicePaymentOp "u" "explanation" 1000000 .icp none true "tx"
        "100.5" (aiServicePaymentOp "u" "explanation" 1000000 .icp none true
          "tx" "100.0" initPayState).2).1.paymentId ≠
      (aiServicePaymentOp "u" "explanation" 1000000 .icp none true "tx"
        "100.0" initPayState).1.paymentId ∧
    ((aiServicePaymentOp "u" "explanation" 1000000 .icp none true "tx"
        "100.5" (aiServicePaymentOp "u" "explanation" 1000000 .icp none true
          "tx" "100.0" initPayState).2).2.objs.map
      fun o => o.pay.paymentId).Nodup ∧
    (aiServicePaymentOp "u" "explanation" 1000000 .icp none true "tx"
        "100.5" (aiServicePaymentOp "u" "explanation" 1000000 .icp none true
          "tx" "100.0" initPayState).2).2.objs.length = 2 := by
  refine ⟨by decide, by decide, by decide⟩

/-- C6 amended: the `record_*` operations are not keyed or deduplicated;
every call builds a fresh record whose id hashes the prefix, user and
current timestamp, and appends it to the store — a duplicate call at a
different timestamp yields a record distinct from the existing one. -/
theorem C6_amended_fresh_records (userId serviceType : String)
    (cyclesUsed : Nat) (pm : PaymentMethod) (explanationId : Option String)
    (txSuccess : Bool) (txId : String) (t1 t2 : String) (s : PayState)
    (hne : t1 ≠ t2) :
    (aiServicePaymentOp userId serviceType cyclesUsed pm explanationId
        txSuccess txId t2 (aiServicePaymentOp userId serviceType cyclesUsed
          pm explanationId txSuccess txId t1 s).2).1 ≠
      (aiServicePaymentOp userId serviceType cyclesUsed pm explanationId
        txSuccess txId t1 s).1 ∧
    (aiServicePaymentOp userId serviceType cyclesUsed pm explanationId
        txSuccess txId t2 (aiServicePaymentOp userId serviceType cyclesUsed
          pm explanationId txSuccess txId t1 s).2).2.objs =
      s.objs ++
        [⟨(aiServicePaymentOp userId serviceType cyclesUsed pm explanationId
            txSuccess txId t1 s).1, false⟩,
         ⟨(aiServicePaymentOp userId serviceType cyclesUsed pm explanationId
            txSuccess txId t2 s).1, false⟩] := by
  constructor
  · intro h
    have hts : (aiServicePaymentOp userId serviceType cyclesUsed pm
        explanationId txSuccess txId t2 (aiServicePaymentOp userId
          serviceType cyclesUsed pm explanationId txSuccess txId t1
          s).2).1.createdAt = t2 := rfl
    rw [h] at hts
    exact hne (hts.symm.trans rfl).symm
  · simp [aiServicePaymentOp]

/-- Witness for `C6_amended_fresh_records` at the counterexample's
concrete inputs. -/
theorem C6_amended_witness :
    (aiServicePaymentOp "u" "explanation" 1000000 .icp none true "tx"
        "100.5" (aiServicePaymentOp "u" "explanation" 1000000 .icp none true
          "tx" "100.0" initPayState).2).1 ≠
      (aiServicePaymentOp "u" "explanation" 1000000 .icp none true "tx"
        "100.0" initPayState).1 :=
  (C6_amended_fresh_records "u" "explanation" 1000000 .icp none true "tx"
    "100.0" "100.5" initPayState (by decide)).1

/-! ## C7 — terminal payment statuses are stable -/

theorem applyPayOp_length_le (op : PayOp) (s : PayState) :
    s.objs.length ≤ (applyPayOp op s).objs.length := by
  cases op <;>
    simp [applyPayOp, aiServicePaymentOp, distributeTaskRewardOp,
      crossChainTransferOp, processBatchSettlementOp]

theorem payInv_applyPayOp (op : PayOp) (s : PayState) (hinv : payInv s) :
    payInv (applyPayOp op s) := by
  cases op with
  | ai u st c pm e ok tx now =>
      intro o ho hq
      rcases List.mem_append.mp ho with h | h
      · exact hinv o h hq
      · simp at h
        rw [h] at hq
        exact absurd hq (by simp)
  | reward r ecc now =>
      intro o ho hq
      rcases List.mem_append.mp ho with h | h
      · exact hinv o h hq
      · simp only [List.mem_singleton] at h
        subst h
        simp only at hq
        exact of_decide_eq_true (Bool.and_elim_right hq)
  | transfer f t a u r now =>
      intro o ho hq
      rcases List.mem_append.mp ho with h | h
      · exact hinv o h hq
      · simp only [List.mem_cons, List.not_mem_nil, or_false] at h
        rcases h with h | h <;> (rw [h])
  | settle now =>
      intro o ho hq
      simp only [applyPayOp, processBatchSettlementOp] at ho
      rcases List.mem_map.mp ho with ⟨o', ho', heq⟩
      by_cases hq' : o'.queued = true
      · rw [if_pos hq'] at heq
        rw [← heq] at hq
        simp at hq
      · rw [if_neg hq'] at heq
        rw [← heq] at hq
        exact absurd hq hq'

theorem getD_map_of_lt (f : PayObj → PayObj) (l : List PayObj) (i : Nat)
    (h : i < l.length) : (l.map f).getD i default = f (l.getD i default) := by
  rw [List.getD_eq_getElem?_getD, List.getElem?_map,
    List.getElem?_eq_getElem h, List.getD_eq_getElem?_getD,
    List.getElem?_eq_getElem h]
  rfl

theorem statusAt_applyPayOp (op : PayOp) (s : PayState) (i : Nat)
    (hinv : payInv s) (hi : i < s.objs.length)
    (hterm : terminalStatus (statusAt s i)) :
    statusAt (applyPayOp op s) i = statusAt s i := by
  have hmemD : s.objs.getD i default ∈ s.objs := by
    rw [List.getD_eq_getElem?_getD, List.getElem?_eq_getElem hi]
    exact List.getElem_mem hi
  cases op with
  | ai u st c pm e ok tx now =>
      show statusAt ⟨s.objs ++ _⟩ i = _
      unfold statusAt
      rw [List.getD_append _ _ _ _ hi]
  | reward r ecc now =>
      show statusAt ⟨s.objs ++ _⟩ i = _
      unfold statusAt
      rw [List.getD_append _ _ _ _ hi]
  | transfer f t a u r now =>
      show statusAt ⟨s.objs ++ _⟩ i = _
      unfold statusAt
      rw [List.getD_append _ _ _ _ hi]
  | settle now =>
      unfold statusAt applyPayOp processBatchSettlementOp
      rw [getD_map_of_lt _ _ _ hi]
      by_cases hq : (s.objs.getD i default).queued = true
      · have hpend := hinv _ hmemD hq
        unfold statusAt at hterm
        rw [hpend] at hterm
        rcases hterm with h | h <;> exact absurd h (by decide)
      · simp only [List.getD_eq_getElem?_getD] at hq
        simp [hq]

theorem payInv_runPayOps (ops : List PayOp) (s : PayState)
    (hinv : payInv s) : payInv (runPayOps ops s) := by
  induction ops generalizing s with
  | nil => exact hinv
  | cons op ops ih => exact ih _ (payInv_applyPayOp op s hinv)

theorem runPayOps_length_le (ops : List PayOp) (s : PayState) :
    s.objs.length ≤ (runPayOps ops s).objs.length := by
  induction ops generalizing s with
  | nil => exact Nat.le_refl _
  | cons op ops ih =>
      exact Nat.le_trans (applyPayOp_length_le op s) (ih (applyPayOp op s))

theorem statusAt_runPayOps (ops : List PayOp) (s : PayState) (i : Nat)
    (hinv : payInv s) (hi : i < s.objs.length)
    (hterm : terminalStatus (statusAt s i)) :
    statusAt (runPayOps ops s) i = statusAt s i := by
  induction ops generalizing s with
  | nil => rfl
  | cons op ops ih =>
      have hstep := statusAt_applyPayOp op s i hinv hi hterm
      have h1 : statusAt (runPayOps ops (applyPayOp op s)) i =
          statusAt (applyPayOp op s) i :=
        ih (applyPayOp op s) (payInv_applyPayOp op s hinv)
          (Nat.lt_of_lt_of_le hi (applyPayOp_length_le op s))
          (by rw [hstep]; exact hterm)
      exact h1.trans hstep

/-- C7: once a payment record's status is completed (settled) or failed,
no later payment-service operation — AI-service payments, reward
distribution, cross-chain transfers or batch settlement — ever changes
that record's status again. -/
theorem C7_terminal_status_stable (ops1 ops2 : List PayOp) (i : Nat)
    (hi : i < (runPayOps ops1 initPayState).objs.length)
    (hterm : terminalStatus (statusAt (runPayOps ops1 initPayState) i)) :
    statusAt (runPayOps (ops1 ++ ops2) initPayState) i =
      statusAt (runPayOps ops1 initPayState) i := by
  have happ : runPayOps (ops1 ++ ops2) initPayState =
      runPayOps ops2 (runPayOps ops1 initPayState) := by
    unfold runPayOps
    rw [List.foldl_append]
  rw [happ]
  exact statusAt_runPayOps ops2 (runPayOps ops1 initPayState) i
    (payInv_runPayOps ops1 initPayState (by intro o ho; cases ho)) hi hterm

/-- Witness for `C7_terminal_status_stable`: a completed AI-service
payment keeps its status across a later cross-chain transfer and a batch
settlement. -/
theorem C7_witness :
    statusAt (runPayOps ([PayOp.ai "u" "explanation" 1000000 .icp none true
        "tx" "100.0"] ++
      [PayOp.transfer "ICP" "MASUMI" 1 "u" "conversion" "200.0",
       PayOp.settle "300.0"]) initPayState) 0 =
      statusAt (runPayOps [PayOp.ai "u" "explanation" 1000000 .icp none true
        "tx" "100.0"] initPayState) 0 :=
  C7_terminal_status_stable
    [PayOp.ai "u" "explanation" 1000000 .icp none true "tx" "100.0"]
    [PayOp.transfer "ICP" "MASUMI" 1 "u" "conversion" "200.0",
     PayOp.settle "300.0"] 0 (by decide) (Or.inl (by decide))

/-! ## C8 — storage round-trip -/

/-- C8: the round-trip law fails at a concrete input. Storing the
connectivity-test payload succeeds and yields a `storage_`-prefixed id,
the subsequent fetch of that id succeeds, but the fetched record is the
query's fixed mock — not the stored payload. -/
theorem C8_roundtrip_fails :
    (storeData (.ok "tx_1") "1700000000"
        ⟨[("test", .atom (.str "connectivity")),
          ("timestamp", .atom (.num 1700000000 0))]⟩).success = true ∧
    retrieveData 1700000000
        ((storeData (.ok "tx_1") "1700000000"
          ⟨[("test", .atom (.str "connectivity")),
            ("timestamp", .atom (.num 1700000000 0))]⟩).storageId.getD "")
      ≠ none ∧
    retrieveData 1700000000
        ((storeData (.ok "tx_1") "1700000000"
          ⟨[("test", .atom (.str "connectivity")),
            ("timestamp", .atom (.num 1700000000 0))]⟩).storageId.getD "")
      ≠ some ⟨[("test", .atom (.str "connectivity")),
          ("timestamp", .atom (.num 1700000000 0))]⟩ := by
  refine ⟨rfl, by decide, by decide⟩

/-! ## C9 — batch store: order preserved, failures isolated -/

/-- C9: `batch_store` returns exactly one result per input item at that
item's position (the `i`-th result is `store_data` of the `i`-th item
under the `i`-th call's outcome); a failing call produces a failed result
at its own position, and changing one call's outcome leaves every other
position's result unchanged. -/
theorem C9_batch_order_and_isolation
    (outcomes outcomes' : Nat → Except String String) (now : String)
    (items : List JDoc) (j : Nat) (e : String)
    (hagree : ∀ k, k ≠ j → outcomes k = outcomes' k)
    (hfail : outcomes j = .error e) :
    (batchStore outcomes now items).length = items.length ∧
    (∀ i, i < items.length →
      (batchStore outcomes now items).getD i ⟨false, none, none, none⟩ =
        storeData (outcomes i) now (items.getD i ⟨[]⟩)) ∧
    (j < items.length →
      ((batchStore outcomes now items).getD j
        ⟨false, none, none, none⟩).success = false) ∧
    (∀ i, i < items.length → i ≠ j →
      (batchStore outcomes now items).getD i ⟨false, none, none, none⟩ =
        (batchStore outcomes' now items).getD i ⟨false, none, none, none⟩) := by
  have hat : ∀ (o : Nat → Except String String) i, i < items.length →
      (batchStore o now items).getD i ⟨false, none, none, none⟩ =
        storeData (o i) now (items.getD i ⟨[]⟩) := by
    intro o i hi
    unfold batchStore
    rw [List.getD_eq_getElem?_getD, List.getElem?_map, List.getElem?_enum,
      List.getElem?_eq_getElem hi, List.getD_eq_getElem?_getD,
      List.getElem?_eq_getElem hi]
    rfl
  refine ⟨by simp [batchStore], hat outcomes, ?_, ?_⟩
  · intro hj
    rw [hat outcomes j hj, hfail]
    rfl
  · intro i hi hij
    rw [hat outcomes i hi, hat outcomes' i hi, hagree i hij]

/-- Witness for `C9_batch_order_and_isolation`: a three-item batch whose
middle call fails still yields three results, failed only at position 1. -/
theorem C9_witness :
    (batchStore (fun k => if k = 1 then .error "boom" else .ok "tx") "17"
        [⟨[("a", .atom (.num 1 0))]⟩, ⟨[("b", .atom (.num 2 0))]⟩,
         ⟨[("c", .atom (.num 3 0))]⟩]).length = 3 ∧
    ((batchStore (fun k => if k = 1 then .error "boom" else .ok "tx") "17"
        [⟨[("a", .atom (.num 1 0))]⟩, ⟨[("b", .atom (.num 2 0))]⟩,
         ⟨[("c", .atom (.num 3 0))]⟩]).getD 1
      ⟨false, none, none, none⟩).success = false := by
  have h := C9_batch_order_and_isolation
    (fun k => if k = 1 then .error "boom" else .ok "tx")
    (fun _ => .ok "tx") "17"
    [⟨[("a", .atom (.num 1 0))]⟩, ⟨[("b", .atom (.num 2 0))]⟩,
     ⟨[("c", .atom (.num 3 0))]⟩] 1 "boom"
    (by intro k hk; simp [hk]) rfl
  exact ⟨h.1, h.2.2.1 (by decide)⟩

/-! ## C10 — exchange rate defaults to 1 and silent 1:1 conversion -/

/-- C10: the exchange-rate lookup returns 1.0 for an identical pair and
for every pair absent from the configured table, so a cross-chain transfer
over an unconfigured pair debits and credits numerically equal amounts
instead of failing. -/
theorem C10_unconfigured_rate_one (c fromCurrency toCurrency : String)
    (amount : ℚ) (userId reason now : String) (s : PayState)
    (hnc : pairConfigured fromCurrency toCurrency = false) :
    getExchangeRate c c = 1 ∧
    getExchangeRate fromCurrency toCurrency = 1 ∧
    (crossChainTransferOp fromCurrency toCurrency amount userId reason now
      s).1.1.amount = amount ∧
    (crossChainTransferOp fromCurrency toCurrency amount userId reason now
      s).1.2.amount = amount := by
  have hrate : getExchangeRate fromCurrency toCurrency = 1 := by
    unfold getExchangeRate
    by_cases heq : fromCurrency = toCurrency
    · rw [if_pos heq]
    · rw [if_neg heq]
      unfold pairConfigured at hnc
      cases hl : (((exchangeRates.lookup (pyUpper fromCurrency)).getD
          []).lookup (pyUpper toCurrency)) with
      | none => simp [hl]
      | some v => rw [hl] at hnc; simp at hnc
  refine ⟨by unfold getExchangeRate; rw [if_pos rfl], hrate, rfl, ?_⟩
  show amount * getExchangeRate fromCurrency toCurrency = amount
  rw [hrate, mul_one]

/-- Witness for `C10_unconfigured_rate_one`: `USD → ICP` is not in the
table (USD has no source row), so a transfer debits and credits 3.5
each. -/
theorem C10_witness :
    (crossChainTransferOp "USD" "ICP" (7/2) "u" "conversion" "100.0"
      initPayState).1.2.amount = 7/2 :=
  (C10_unconfigured_rate_one "ICP" "USD" "ICP" (7/2) "u" "conversion"
    "100.0" initPayState (by decide)).2.2.2

end Ziggurat
